import Mathlib

/-!
Verification of the intent-routing and evaluation subsystem of the
LLM-Agent-Framework-for-Customer-Service-Routing repository.

The development shallowly embeds `src/router.py` and
`evaluation/evaluate.py`.  Remote LLM calls are abstracted as an oracle
function returning either a response text or a raised exception
(`Except String String`); the environment (`os.getenv`) is a function
from variable names to optional values; the module-level globals
`_client` and `_provider` become an explicit `RouterState` record that
is threaded through the functions.  Real time (latencies, the actual
sleeping) is not modelled, but every performed sleep and every issued
remote call is recorded in an explicit per-iteration trace so that
pacing and call-count properties can be stated.
-/

/-- Model of Python `str.strip()` followed by `.upper()` as used in
`route_query` (`response.text.strip().upper()`): drop whitespace from
both ends, then uppercase (ASCII model of the Python semantics). -/
def pyStripUpper (s : String) : String :=
  ⟨(((s.data.dropWhile Char.isWhitespace).reverse.dropWhile
      Char.isWhitespace).reverse).map Char.toUpper⟩

/-- Model of Python `str.lower()` used by `initialize_client`
(`provider.lower()`); ASCII model. -/
def pyLower (s : String) : String :=
  ⟨s.data.map Char.toLower⟩

/-- The opaque client handle stored in the global `_client`:
`genai.Client(api_key=...)` for google, `OpenAI(api_key=..., base_url=...)`
for groq.  Only its identity and which constructor produced it matter. -/
inductive Client where
  | google (apiKey : String)
  | groq (apiKey : String)
deriving DecidableEq, Repr

/-- The module-level globals of `src/router.py`:
`_client = None` and `_provider = None`. -/
structure RouterState where
  client : Option Client
  provider : Option String
deriving DecidableEq, Repr

/-- `DEFAULT_MODELS` dictionary of `src/router.py`; `.get` returns
`none` for unknown keys. -/
def DEFAULT_MODELS (p : String) : Option String :=
  if p = "google" then some "gemini-2.5-flash"
  else if p = "groq" then some "llama-3.1-8b-instant"
  else none

/-- Model of `os.getenv` combined with the Python truthiness test
`if not api_key`: an unset variable and an empty string both count as
absent. -/
def getenvTruthy (env : String → Option String) (k : String) : Option String :=
  match env k with
  | none => none
  | some s => if s = "" then none else some s

/-- `initialize_client(provider, model=None)` of `src/router.py`.
The global assignment `_provider = provider.lower()` happens before any
validation, so a failing call still overwrites `provider` while leaving
`client` untouched.  Raised `ValueError`s become `Except.error`
(message texts follow the source, with the quote characters of the
final message elided).  On success the function returns
`DEFAULT_MODELS.get(_provider) if model is None else model`. -/
def initialize_client (provider : String) (model : Option String)
    (env : String → Option String) (st : RouterState) :
    RouterState × Except String (Option String) :=
  let p := pyLower provider
  let st1 : RouterState := { st with provider := some p }
  if p = "google" then
    match getenvTruthy env "GOOGLE_API_KEY" with
    | none => (st1, Except.error "GOOGLE_API_KEY not found in environment")
    | some key =>
        ({ st1 with client := some (Client.google key) },
         Except.ok (if model.isNone then DEFAULT_MODELS p else model))
  else if p = "groq" then
    match getenvTruthy env "GROQ_API_KEY" with
    | none => (st1, Except.error "GROQ_API_KEY not found in environment")
    | some key =>
        ({ st1 with client := some (Client.groq key) },
         Except.ok (if model.isNone then DEFAULT_MODELS p else model))
  else
    (st1, Except.error ("Unknown provider: " ++ provider ++ ". Use google or groq"))

/-- `route_query(query, model=None)` of `src/router.py`.  The remote
call (together with the extraction `response...content` /
`response.text`) is abstracted as `remote : Except String String`:
`Except.ok text` is a successful call returning `text`, `Except.error e`
a call that raised.  Faithful control flow:
- `_client is None` raises a `RuntimeError` (the only uncaught path);
- for providers `"groq"` and `"google"` the response text is normalized
  with `.strip().upper()`;
- for any other provider value the variable `intent` is never assigned,
  so `return intent` raises a `NameError`, which the enclosing
  `except Exception` also converts to `"ERROR"`;
- any exception inside the `try` block is caught and converted to the
  returned string `"ERROR"`.
The query string and the resolved model only flow into the remote call,
which is abstracted, so they do not appear here. -/
def route_query (st : RouterState) (remote : Except String String)
    (model : Option String) : Except String String :=
  match st.client with
  | none => Except.error "Client not initialized. Call initialize_client() first."
  | some _ =>
      if st.provider = some "groq" ∨ st.provider = some "google" then
        match remote with
        | Except.ok text => Except.ok (pyStripUpper text)
        | Except.error _ => Except.ok "ERROR"
      else
        Except.ok "ERROR"

/-- Number of remote calls a single `route_query` invocation issues,
read off the same control flow as `route_query`: none when the client
check raises, none when the provider dispatch falls through (the
`NameError` path), exactly one otherwise. -/
def route_query_remote_calls (st : RouterState) : Nat :=
  match st.client with
  | none => 0
  | some _ =>
      if st.provider = some "groq" ∨ st.provider = some "google" then 1 else 0

example : route_query ⟨some (Client.google "k"), some "google"⟩
    (Except.ok " faq \n") none = Except.ok "FAQ" := by rfl

example : route_query ⟨none, none⟩ (Except.ok "FAQ") none =
    Except.error "Client not initialized. Call initialize_client() first." := by rfl

example : (initialize_client "bogus" none (fun _ => none) ⟨none, none⟩).1 =
    ⟨none, some "bogus"⟩ := by rfl

/-- A `TestCase` of `evaluation/test_data.py`: a query and its expected
label. -/
structure TestCase where
  query : String
  expected : String
deriving DecidableEq, Repr

/-- One entry of the `results["details"]` list built by
`evaluate_provider` (a `PredictionDetail`).  The wall-clock
`latency_ms` field is real time and is not modelled; the optional
`error` field is present exactly on the harness-exception path. -/
structure PredictionDetail where
  query : String
  expected : String
  predicted : String
  correct : Bool
  error : Option String
deriving DecidableEq, Repr

/-- The aggregate result dictionary built by `evaluate_provider`
(an `EvaluationResult`).  `accuracy` is modelled as an exact rational;
the wall-clock latency aggregates are real time and not modelled. -/
structure EvaluationResult where
  provider : String
  model : Option String
  total : Nat
  correct : Nat
  incorrect : Nat
  errors : Nat
  accuracy : ℚ
  details : List PredictionDetail
deriving DecidableEq, Repr

/-- Observable side effects of one loop iteration of
`evaluate_provider`: the sleeps performed before the request was
issued (each entry a duration in seconds), and how many remote calls
the `route_query` invocation issued. -/
structure IterTrace where
  sleptBefore : List ℚ
  remoteCalls : Nat
deriving DecidableEq, Repr

/-- `RATE_LIMITS.get(provider, 60)` of `evaluation/evaluate.py`. -/
def RATE_LIMITS (p : String) : Nat :=
  if p = "google" then 5 else if p = "groq" then 30 else 60

/-- Python `round(x, 2)` on the exact rational value: round to two
decimal places (`round` is Mathlib round-half-up on the scaled value;
the tie-breaking mode is irrelevant to the properties proved here,
which compare the code and the spec formula through the same
function). -/
def round2 (q : ℚ) : ℚ := (round (q * 100) : ℤ) / 100

/-- Accumulated output of the `for i, test_case in enumerate(...)` loop
of `evaluate_provider`: the three counters, the details list and the
per-iteration effect trace, all in iteration order. -/
structure LoopOut where
  correct : Nat
  incorrect : Nat
  errors : Nat
  details : List PredictionDetail
  trace : List IterTrace
deriving DecidableEq, Repr

/-- The main loop of `evaluate_provider`, one recursive step per test
case.  `st` is the router state after the successful
`initialize_client` call (the globals are not mutated inside the
loop), `oracle k` is the outcome of the k-th remote call, `i` the
current value of the `enumerate` index.  Per iteration, in source
order: sleep `delay` when `i > 0 and rate_limit < 10`; call
`route_query(query)`; on a normal return compare
`predicted == expected` and append a detail record; on a raised
exception count an error and append a detail with
`predicted = "ERROR"` and the exception text. -/
def evalLoop (st : RouterState) (oracle : Nat → Except String String)
    (rateLimit : Nat) (delay : ℚ) : List TestCase → Nat → LoopOut
  | [], _ => ⟨0, 0, 0, [], []⟩
  | tc :: rest, i =>
      let slept : List ℚ := if 0 < i ∧ rateLimit < 10 then [delay] else []
      let it : IterTrace := ⟨slept, route_query_remote_calls st⟩
      let out := evalLoop st oracle rateLimit delay rest (i + 1)
      match route_query st (oracle i) none with
      | Except.ok predicted =>
          let isCorrect : Bool := predicted = tc.expected
          { correct := (if isCorrect then 1 else 0) + out.correct
            incorrect := (if isCorrect then 0 else 1) + out.incorrect
            errors := out.errors
            details := ⟨tc.query, tc.expected, predicted, isCorrect, none⟩ :: out.details
            trace := it :: out.trace }
      | Except.error e =>
          { correct := out.correct
            incorrect := out.incorrect
            errors := out.errors + 1
            details := ⟨tc.query, tc.expected, "ERROR", false, some e⟩ :: out.details
            trace := it :: out.trace }

/-- `evaluate_provider(provider, test_cases)` of
`evaluation/evaluate.py`, returning the result dictionary together
with the per-iteration effect trace.  Control flow follows the source:
build the initial result record; call `initialize_client(provider)`
and on failure return early with `errors = len(test_cases)` (details
stay empty, accuracy stays `0.0`, no iteration runs); otherwise
compute `rate_limit = RATE_LIMITS.get(provider, 60)` and
`delay_seconds = 60.0 / rate_limit + 0.5`, run the loop, and finally
set `accuracy = round(correct / total * 100, 2) if total > 0 else
0.0`. -/
def evaluate_provider (provider : String) (test_cases : List TestCase)
    (env : String → Option String) (oracle : Nat → Except String String)
    (st0 : RouterState) : EvaluationResult × List IterTrace :=
  let total := test_cases.length
  let base : EvaluationResult :=
    { provider := provider, model := DEFAULT_MODELS provider, total := total,
      correct := 0, incorrect := 0, errors := 0, accuracy := 0, details := [] }
  match initialize_client provider none env st0 with
  | (_, Except.error _) => ({ base with errors := total }, [])
  | (st1, Except.ok _) =>
      let rateLimit := RATE_LIMITS provider
      let delay : ℚ := 60 / (rateLimit : ℚ) + 1/2
      let out := evalLoop st1 oracle rateLimit delay test_cases 0
      let accuracy : ℚ :=
        if total > 0 then round2 ((out.correct : ℚ) / (total : ℚ) * 100) else 0
      ({ base with
          correct := out.correct
          incorrect := out.incorrect
          errors := out.errors
          accuracy := accuracy
          details := out.details },
       out.trace)

/-- Stable insertion used to model `sorted(all_results,
key=lambda x: x["accuracy"], reverse=True)` in
`print_comparison_table`: the inserted element goes before the first
element whose accuracy is at most its own, so an element earlier in
the input stays before later elements with equal accuracy. -/
def insertByAccuracy (x : EvaluationResult) :
    List EvaluationResult → List EvaluationResult
  | [] => [x]
  | y :: ys =>
      if y.accuracy ≤ x.accuracy then x :: y :: ys
      else y :: insertByAccuracy x ys

/-- `sorted(all_results, key=lambda x: x["accuracy"], reverse=True)`
of `print_comparison_table`: Python sorted is a stable sort and
`reverse=True` reverses the comparisons while preserving stability;
the output of a stable sort is uniquely determined, so this stable
descending insertion sort is an exact model. -/
def sortResults : List EvaluationResult → List EvaluationResult
  | [] => []
  | x :: xs => insertByAccuracy x (sortResults xs)

/-! ### Concrete inputs used by the witnesses and the counterexample -/

/-- An environment providing only the google credential. -/
def envW : String → Option String :=
  fun k => if k = "GOOGLE_API_KEY" then some "k" else none

/-- An oracle that raises on every remote call. -/
def oracleErrW : Nat → Except String String := fun _ => Except.error "boom"

/-- An oracle that answers every remote call with the text `"FAQ"`. -/
def oracleOkW : Nat → Except String String := fun _ => Except.ok "FAQ"

/-- A small concrete test corpus. -/
def casesW : List TestCase := [⟨"q1", "FAQ"⟩, ⟨"q2", "ORDER"⟩, ⟨"q3", "FAQ"⟩]



/-! ### Helper lemmas shared by the claim theorems -/

lemma route_query_oracle_error (st : RouterState) (c : Client) (e : String)
    (m : Option String) (hc : st.client = some c) :
    route_query st (Except.error e) m = Except.ok "ERROR" := by
  simp only [route_query, hc]
  split <;> rfl

lemma initialize_client_ok_client {provider : String} {m : Option String}
    {env : String → Option String} {st : RouterState} {r : Option String}
    (h : (initialize_client provider m env st).2 = Except.ok r) :
    ∃ c, (initialize_client provider m env st).1.client = some c := by
  unfold initialize_client at h ⊢
  by_cases h1 : pyLower provider = "google"
  · cases hg : getenvTruthy env "GOOGLE_API_KEY" with
    | none => simp [h1, hg] at h
    | some key => exact ⟨Client.google key, by simp [h1, hg]⟩
  · by_cases h2 : pyLower provider = "groq"
    · cases hg : getenvTruthy env "GROQ_API_KEY" with
      | none => simp [h1, h2, hg] at h
      | some key => exact ⟨Client.groq key, by simp [h1, h2, hg]⟩
    · simp [h1, h2] at h

lemma evalLoop_counts (st : RouterState) (oracle : Nat → Except String String)
    (rateLimit : Nat) (delay : ℚ) (cases : List TestCase) (i : Nat) :
    (evalLoop st oracle rateLimit delay cases i).correct +
      (evalLoop st oracle rateLimit delay cases i).incorrect +
      (evalLoop st oracle rateLimit delay cases i).errors = cases.length := by
  induction cases generalizing i with
  | nil => rfl
  | cons tc rest ih =>
      have ih1 := ih (i + 1)
      simp only [evalLoop, List.length_cons]
      cases h : route_query st (oracle i) none with
      | ok predicted =>
          by_cases hc : predicted = tc.expected <;> simp [hc] <;> omega
      | error e => simp; omega

lemma evalLoop_trace_length (st : RouterState)
    (oracle : Nat → Except String String) (rateLimit : Nat) (delay : ℚ)
    (cases : List TestCase) (i : Nat) :
    (evalLoop st oracle rateLimit delay cases i).trace.length = cases.length := by
  induction cases generalizing i with
  | nil => rfl
  | cons tc rest ih =>
      simp only [evalLoop, List.length_cons]
      cases h : route_query st (oracle i) none <;> simp [ih (i + 1)]

lemma evalLoop_trace_get (st : RouterState)
    (oracle : Nat → Except String String) (rateLimit : Nat) (delay : ℚ)
    (cases : List TestCase) (i k : Nat)
    (hk : k < (evalLoop st oracle rateLimit delay cases i).trace.length) :
    ((evalLoop st oracle rateLimit delay cases i).trace.get ⟨k, hk⟩).sleptBefore =
      if 0 < i + k ∧ rateLimit < 10 then [delay] else [] := by
  induction cases generalizing i k with
  | nil => simp [evalLoop] at hk
  | cons tc rest ih =>
      revert hk
      simp only [evalLoop]
      cases h : route_query st (oracle i) none with
      | ok predicted =>
          cases k with
          | zero => intro hk; simp
          | succ k0 =>
              intro hk
              have := ih (i + 1) k0 (by
                have hlen := evalLoop_trace_length st oracle rateLimit delay rest (i + 1)
                simp only [evalLoop, h] at hk
                simp at hk
                omega)
              simp only [List.get_cons_succ]
              rw [this]
              have harith : i + 1 + k0 = i + (k0 + 1) := by omega
              rw [harith]
      | error e =>
          cases k with
          | zero => intro hk; simp
          | succ k0 =>
              intro hk
              have := ih (i + 1) k0 (by
                have hlen := evalLoop_trace_length st oracle rateLimit delay rest (i + 1)
                simp only [evalLoop, h] at hk
                simp at hk
                omega)
              simp only [List.get_cons_succ]
              rw [this]
              have harith : i + 1 + k0 = i + (k0 + 1) := by omega
              rw [harith]

lemma evalLoop_all_oracle_errors (st : RouterState) (c : Client)
    (oracle : Nat → Except String String) (rateLimit : Nat) (delay : ℚ)
    (hc : st.client = some c)
    (hor : ∀ k, ∃ e, oracle k = Except.error e)
    (cases : List TestCase) (i : Nat)
    (hexp : ∀ tc ∈ cases, tc.expected ≠ "ERROR") :
    (evalLoop st oracle rateLimit delay cases i).correct = 0 ∧
    (evalLoop st oracle rateLimit delay cases i).incorrect = cases.length ∧
    (evalLoop st oracle rateLimit delay cases i).errors = 0 ∧
    ∀ d ∈ (evalLoop st oracle rateLimit delay cases i).details,
      d.predicted = "ERROR" := by
  induction cases generalizing i with
  | nil => exact ⟨rfl, rfl, rfl, by intro d hd; simp [evalLoop] at hd⟩
  | cons tc rest ih =>
      obtain ⟨e, he⟩ := hor i
      have hrq : route_query st (oracle i) none = Except.ok "ERROR" := by
        rw [he]; exact route_query_oracle_error st c e none hc
      have hne : tc.expected ≠ "ERROR" := hexp tc (List.mem_cons_self tc rest)
      have ihr := ih (i + 1) (fun t ht => hexp t (List.mem_cons_of_mem tc ht))
      have hcorr : ("ERROR" = tc.expected) = False := eq_false (fun h => hne h.symm)
      refine ⟨?_, ?_, ?_, ?_⟩
      · have h1 := ihr.1
        simp [evalLoop, hrq, hcorr]
        omega
      · have h2 := ihr.2.1
        simp [evalLoop, hrq, hcorr]
        omega
      · have h3 := ihr.2.2.1
        simp [evalLoop, hrq, hcorr]
        omega
      · intro d hd
        simp only [evalLoop, hrq] at hd
        simp only [List.mem_cons] at hd
        rcases hd with rfl | hd
        · rfl
        · exact ihr.2.2.2 d hd

lemma mem_insertByAccuracy {x z : EvaluationResult} :
    ∀ {l : List EvaluationResult}, z ∈ insertByAccuracy x l → z = x ∨ z ∈ l
  | [], h => by simpa [insertByAccuracy] using h
  | y :: ys, h => by
      unfold insertByAccuracy at h
      split at h
      · simpa using h
      · rcases List.mem_cons.mp h with rfl | h2
        · exact Or.inr (List.mem_cons_self _ _)
        · rcases mem_insertByAccuracy h2 with rfl | h3
          · exact Or.inl rfl
          · exact Or.inr (List.mem_cons_of_mem _ h3)

lemma pairwise_insertByAccuracy (x : EvaluationResult) :
    ∀ {l : List EvaluationResult},
      l.Pairwise (fun u v => v.accuracy ≤ u.accuracy) →
      (insertByAccuracy x l).Pairwise (fun u v => v.accuracy ≤ u.accuracy)
  | [], _ => List.pairwise_singleton _ _
  | y :: ys, h => by
      rw [List.pairwise_cons] at h
      unfold insertByAccuracy
      split
      · rename_i hyx
        refine List.pairwise_cons.mpr ⟨?_, List.pairwise_cons.mpr h⟩
        intro z hz
        rcases List.mem_cons.mp hz with rfl | hz2
        · exact hyx
        · exact le_trans (h.1 z hz2) hyx
      · rename_i hyx
        refine List.pairwise_cons.mpr ⟨?_, pairwise_insertByAccuracy x h.2⟩
        intro z hz
        rcases mem_insertByAccuracy hz with rfl | hz2
        · exact le_of_lt (lt_of_not_le hyx)
        · exact h.1 z hz2

lemma filter_insertByAccuracy_eq (x : EvaluationResult) (q : ℚ) (hq : x.accuracy = q) :
    ∀ l : List EvaluationResult,
      (insertByAccuracy x l).filter (fun r => decide (r.accuracy = q)) =
        x :: l.filter (fun r => decide (r.accuracy = q))
  | [] => by simp [insertByAccuracy, hq]
  | y :: ys => by
      unfold insertByAccuracy
      split
      · rw [List.filter_cons]
        simp [hq]
      · rename_i hyx
        have hyq : ¬ y.accuracy = q := fun hcon => hyx (le_of_eq (hq ▸ hcon))
        simp [List.filter_cons, hyq, filter_insertByAccuracy_eq x q hq ys]

lemma filter_insertByAccuracy_ne (x : EvaluationResult) (q : ℚ) (hq : ¬ x.accuracy = q) :
    ∀ l : List EvaluationResult,
      (insertByAccuracy x l).filter (fun r => decide (r.accuracy = q)) =
        l.filter (fun r => decide (r.accuracy = q))
  | [] => by simp [insertByAccuracy, hq]
  | y :: ys => by
      unfold insertByAccuracy
      split
      · simp [List.filter_cons, hq]
      · simp [List.filter_cons, filter_insertByAccuracy_ne x q hq ys]

lemma evaluate_provider_ok_unfold (provider : String) (test_cases : List TestCase)
    (env : String → Option String) (oracle : Nat → Except String String)
    (st0 : RouterState) (mres : Option String)
    (hm : (initialize_client provider none env st0).2 = Except.ok mres) :
    evaluate_provider provider test_cases env oracle st0 =
      ({ provider := provider
         model := DEFAULT_MODELS provider
         total := test_cases.length
         correct := (evalLoop (initialize_client provider none env st0).1 oracle
           (RATE_LIMITS provider) (60 / (RATE_LIMITS provider : ℚ) + 1/2)
           test_cases 0).correct
         incorrect := (evalLoop (initialize_client provider none env st0).1 oracle
           (RATE_LIMITS provider) (60 / (RATE_LIMITS provider : ℚ) + 1/2)
           test_cases 0).incorrect
         errors := (evalLoop (initialize_client provider none env st0).1 oracle
           (RATE_LIMITS provider) (60 / (RATE_LIMITS provider : ℚ) + 1/2)
           test_cases 0).errors
         accuracy :=
           if test_cases.length > 0 then
             round2 (((evalLoop (initialize_client provider none env st0).1 oracle
               (RATE_LIMITS provider) (60 / (RATE_LIMITS provider : ℚ) + 1/2)
               test_cases 0).correct : ℚ) / (test_cases.length : ℚ) * 100)
           else 0
         details := (evalLoop (initialize_client provider none env st0).1 oracle
           (RATE_LIMITS provider) (60 / (RATE_LIMITS provider : ℚ) + 1/2)
           test_cases 0).details },
       (evalLoop (initialize_client provider none env st0).1 oracle
         (RATE_LIMITS provider) (60 / (RATE_LIMITS provider : ℚ) + 1/2)
         test_cases 0).trace) := by
  unfold evaluate_provider
  rcases hI : initialize_client provider none env st0 with ⟨st1, r⟩
  rw [hI] at hm
  cases r with
  | error e => simp at hm
  | ok m2 => rfl

lemma evaluate_provider_error_unfold (provider : String)
    (test_cases : List TestCase) (env : String → Option String)
    (oracle : Nat → Except String String) (st0 : RouterState) (e : String)
    (he : (initialize_client provider none env st0).2 = Except.error e) :
    evaluate_provider provider test_cases env oracle st0 =
      ({ provider := provider
         model := DEFAULT_MODELS provider
         total := test_cases.length
         correct := 0
         incorrect := 0
         errors := test_cases.length
         accuracy := 0
         details := [] }, []) := by
  unfold evaluate_provider
  rcases hI : initialize_client provider none env st0 with ⟨st1, r⟩
  rw [hI] at he
  cases r with
  | error e2 => rfl
  | ok m2 => simp at he

/-! ### Claim theorems -/

/-- C1: for every EvaluationResult produced by `evaluate_provider`
(whether initialization succeeds or fails, and for any mix of correct,
incorrect and error outcomes), `correct + incorrect + errors = total`,
where `total` is the number of test cases. -/
theorem evaluation_counts_invariant (provider : String)
    (test_cases : List TestCase) (env : String → Option String)
    (oracle : Nat → Except String String) (st0 : RouterState) :
    (evaluate_provider provider test_cases env oracle st0).1.correct +
      (evaluate_provider provider test_cases env oracle st0).1.incorrect +
      (evaluate_provider provider test_cases env oracle st0).1.errors =
      (evaluate_provider provider test_cases env oracle st0).1.total := by
  cases hr : (initialize_client provider none env st0).2 with
  | error e =>
      rw [evaluate_provider_error_unfold provider test_cases env oracle st0 e hr]
      simp
  | ok mres =>
      rw [evaluate_provider_ok_unfold provider test_cases env oracle st0 mres hr]
      exact evalLoop_counts _ _ _ _ _ _

/-- C4: for every EvaluationResult returned by `evaluate_provider`,
`accuracy = round(correct / total * 100, 2)` when `total > 0`, and
`accuracy = 0` when `total = 0` (in particular an empty test corpus
yields accuracy `0`). -/
theorem evaluation_accuracy_formula (provider : String)
    (test_cases : List TestCase) (env : String → Option String)
    (oracle : Nat → Except String String) (st0 : RouterState) :
    (evaluate_provider provider test_cases env oracle st0).1.accuracy =
      if 0 < (evaluate_provider provider test_cases env oracle st0).1.total then
        round2 (((evaluate_provider provider test_cases env oracle st0).1.correct : ℚ) /
          ((evaluate_provider provider test_cases env oracle st0).1.total : ℚ) * 100)
      else 0 := by
  cases hr : (initialize_client provider none env st0).2 with
  | error e =>
      rw [evaluate_provider_error_unfold provider test_cases env oracle st0 e hr]
      by_cases ht : 0 < test_cases.length
      · simp [ht, round2]
      · simp [ht]
  | ok mres =>
      rw [evaluate_provider_ok_unfold provider test_cases env oracle st0 mres hr]

/-- C3: for every initialized session (the client handle is set) and
every query, if the remote call inside classify fails, `route_query`
does not propagate the error to its caller: it returns the literal
string `"ERROR"`. -/
theorem classify_recovers_remote_failure (st : RouterState) (c : Client)
    (e : String) (m : Option String) (hc : st.client = some c) :
    route_query st (Except.error e) m = Except.ok "ERROR" :=
  route_query_oracle_error st c e m hc

/-- Witness for C3 at a concrete initialized session and a concrete
raised remote error. -/
theorem classify_recovers_remote_failure_witness :
    route_query ⟨some (Client.google "k"), some "google"⟩
      (Except.error "boom") none = Except.ok "ERROR" :=
  classify_recovers_remote_failure ⟨some (Client.google "k"), some "google"⟩
    (Client.google "k") "boom" none rfl

/-- C7: for every query, calling `route_query` with no active client
fails with the RuntimeError "not initialized" instead of returning a
label, and this is the only condition under which it raises: with an
active client it always returns a string normally. -/
theorem classify_requires_initialized_client (st : RouterState)
    (remote : Except String String) (m : Option String) :
    (st.client = none ∧
      route_query st remote m =
        Except.error "Client not initialized. Call initialize_client() first.") ∨
    ((∃ c, st.client = some c) ∧
      ∃ lab, route_query st remote m = Except.ok lab) := by
  cases hc : st.client with
  | none => exact Or.inl ⟨rfl, by simp [route_query, hc]⟩
  | some c =>
      refine Or.inr ⟨⟨c, rfl⟩, ?_⟩
      simp only [route_query, hc]
      split
      · cases remote with
        | ok text => exact ⟨pyStripUpper text, rfl⟩
        | error e => exact ⟨"ERROR", rfl⟩
      · exact ⟨"ERROR", rfl⟩

/-- C8: for every initialized session whose provider is google or groq
and every text the oracle returns on a successful remote call,
`route_query` returns exactly that text trimmed and uppercased, with
no validation against the Label enum: any resulting content, the
empty string included, is returned verbatim. -/
theorem classify_returns_normalized_text (st : RouterState) (c : Client)
    (text : String) (m : Option String) (hc : st.client = some c)
    (hp : st.provider = some "google" ∨ st.provider = some "groq") :
    route_query st (Except.ok text) m = Except.ok (pyStripUpper text) := by
  simp only [route_query, hc]
  rcases hp with hp | hp <;> simp [hp]

/-- Witness for C8: the empty response text is returned as the empty
string, which is not a Label. -/
theorem classify_returns_normalized_text_witness :
    route_query ⟨some (Client.groq "k"), some "groq"⟩ (Except.ok "") none =
      Except.ok "" :=
  (classify_returns_normalized_text ⟨some (Client.groq "k"), some "groq"⟩
    (Client.groq "k") "" none rfl (Or.inr rfl)).trans rfl

/-- C5: if Router initialization for the provider fails,
`evaluate_provider` returns an EvaluationResult with `errors = total`,
`correct = incorrect = 0` and empty details, runs no loop iteration
(empty effect trace) and issues no remote classify call. -/
theorem init_failure_aborts_provider (provider : String)
    (test_cases : List TestCase) (env : String → Option String)
    (oracle : Nat → Except String String) (st0 : RouterState)
    (h : ∃ e, (initialize_client provider none env st0).2 = Except.error e) :
    (evaluate_provider provider test_cases env oracle st0).1.errors =
      (evaluate_provider provider test_cases env oracle st0).1.total ∧
    (evaluate_provider provider test_cases env oracle st0).1.correct = 0 ∧
    (evaluate_provider provider test_cases env oracle st0).1.incorrect = 0 ∧
    (evaluate_provider provider test_cases env oracle st0).1.details = [] ∧
    (evaluate_provider provider test_cases env oracle st0).2 = [] ∧
    (((evaluate_provider provider test_cases env oracle st0).2).map
      IterTrace.remoteCalls).sum = 0 := by
  obtain ⟨e, he⟩ := h
  rw [evaluate_provider_error_unfold provider test_cases env oracle st0 e he]
  exact ⟨rfl, rfl, rfl, rfl, rfl, rfl⟩

/-- Witness for C5: the unknown provider name "bogus" makes
initialization fail and produces the all-errors result. -/
theorem init_failure_aborts_provider_witness :
    (evaluate_provider "bogus" casesW envW oracleOkW ⟨none, none⟩).1.errors =
      (evaluate_provider "bogus" casesW envW oracleOkW ⟨none, none⟩).1.total ∧
    (evaluate_provider "bogus" casesW envW oracleOkW ⟨none, none⟩).1.correct = 0 ∧
    (evaluate_provider "bogus" casesW envW oracleOkW ⟨none, none⟩).1.incorrect = 0 ∧
    (evaluate_provider "bogus" casesW envW oracleOkW ⟨none, none⟩).1.details = [] ∧
    (evaluate_provider "bogus" casesW envW oracleOkW ⟨none, none⟩).2 = [] ∧
    (((evaluate_provider "bogus" casesW envW oracleOkW ⟨none, none⟩).2).map
      IterTrace.remoteCalls).sum = 0 :=
  init_failure_aborts_provider "bogus" casesW envW oracleOkW ⟨none, none⟩
    ⟨"Unknown provider: bogus. Use google or groq", rfl⟩

/-- C6: after a successful initialization the evaluation loop runs one
iteration per test case, and a sleep of exactly
`60 / rate_limit + 0.5` seconds is performed before issuing the
request for every test case except the first if and only if the
provider's configured rate limit (`RATE_LIMITS`, default 60) is below
10 requests per minute. -/
theorem rate_limit_pacing (provider : String) (test_cases : List TestCase)
    (env : String → Option String) (oracle : Nat → Except String String)
    (st0 : RouterState)
    (h : ∃ m, (initialize_client provider none env st0).2 = Except.ok m) :
    (evaluate_provider provider test_cases env oracle st0).2.length =
      test_cases.length ∧
    ∀ (i : Nat) (hi : i < (evaluate_provider provider test_cases env oracle st0).2.length),
      (((evaluate_provider provider test_cases env oracle st0).2).get ⟨i, hi⟩).sleptBefore =
        if 0 < i ∧ RATE_LIMITS provider < 10 then
          [60 / (RATE_LIMITS provider : ℚ) + 1/2]
        else [] := by
  obtain ⟨mres, hm⟩ := h
  rw [evaluate_provider_ok_unfold provider test_cases env oracle st0 mres hm]
  refine ⟨evalLoop_trace_length _ _ _ _ _ _, ?_⟩
  intro i hi
  rw [evalLoop_trace_get _ _ _ _ _ _ i hi]
  simp

/-- Witness for C6: with the google provider (rate limit 5 < 10) the
second iteration sleeps exactly 60/5 + 0.5 = 12.5 seconds. -/
theorem rate_limit_pacing_witness :
    (evaluate_provider "google" casesW envW oracleOkW ⟨none, none⟩).2.length = 3 ∧
    (((evaluate_provider "google" casesW envW oracleOkW ⟨none, none⟩).2).get
      ⟨1, by decide⟩).sleptBefore = [25/2] := by
  have h := rate_limit_pacing "google" casesW envW oracleOkW ⟨none, none⟩
    ⟨some "gemini-2.5-flash", rfl⟩
  refine ⟨h.1.trans rfl, ?_⟩
  rw [h.2 1 (by decide)]
  norm_num [RATE_LIMITS]

/-- C2 as stated is false on the code: when the oracle raises on every
call, `route_query` converts each failure to the returned label
`"ERROR"`, so `evaluate_provider` counts every test case as incorrect,
not as an error.  At this concrete input (google provider, one test
case, an always-raising oracle) the produced result has `errors = 0`
and `total = 1`, refuting `errors == total` and `incorrect == 0`. -/
theorem raising_oracle_claim_counterexample :
    ¬ ((evaluate_provider "google" [⟨"q", "FAQ"⟩] envW oracleErrW ⟨none, none⟩).1.errors =
        (evaluate_provider "google" [⟨"q", "FAQ"⟩] envW oracleErrW ⟨none, none⟩).1.total ∧
      (evaluate_provider "google" [⟨"q", "FAQ"⟩] envW oracleErrW ⟨none, none⟩).1.correct = 0 ∧
      (evaluate_provider "google" [⟨"q", "FAQ"⟩] envW oracleErrW ⟨none, none⟩).1.incorrect = 0 ∧
      ∀ d ∈ (evaluate_provider "google" [⟨"q", "FAQ"⟩] envW oracleErrW ⟨none, none⟩).1.details,
        d.predicted = "ERROR") := by
  intro h
  have h1 : (evaluate_provider "google" [⟨"q", "FAQ"⟩] envW oracleErrW ⟨none, none⟩).1.errors = 0 := rfl
  have h2 : (evaluate_provider "google" [⟨"q", "FAQ"⟩] envW oracleErrW ⟨none, none⟩).1.total = 1 := rfl
  rw [h1, h2] at h
  exact absurd h.1 (by decide)

/-- C2 amended: if the oracle raises on every call then, for a
successfully initialized provider and a corpus whose expected labels
are never the sentinel `"ERROR"`, `evaluate_provider` returns a result
with `incorrect = total`, `correct = 0`, `errors = 0` (the Router
converts every failure to the label `"ERROR"`, which scores as an
incorrect prediction), and every detail's predicted field is
`"ERROR"`. -/
theorem raising_oracle_all_incorrect (provider : String)
    (test_cases : List TestCase) (env : String → Option String)
    (oracle : Nat → Except String String) (st0 : RouterState)
    (hor : ∀ k, ∃ e, oracle k = Except.error e)
    (hinit : ∃ m, (initialize_client provider none env st0).2 = Except.ok m)
    (hne : test_cases ≠ [])
    (hexp : ∀ tc ∈ test_cases, tc.expected ≠ "ERROR") :
    (evaluate_provider provider test_cases env oracle st0).1.incorrect =
      (evaluate_provider provider test_cases env oracle st0).1.total ∧
    (evaluate_provider provider test_cases env oracle st0).1.correct = 0 ∧
    (evaluate_provider provider test_cases env oracle st0).1.errors = 0 ∧
    ∀ d ∈ (evaluate_provider provider test_cases env oracle st0).1.details,
      d.predicted = "ERROR" := by
  obtain ⟨mres, hm⟩ := hinit
  obtain ⟨c, hc⟩ := initialize_client_ok_client hm
  have key := evalLoop_all_oracle_errors (initialize_client provider none env st0).1
    c oracle (RATE_LIMITS provider) (60 / (RATE_LIMITS provider : ℚ) + 1/2)
    hc hor test_cases 0 hexp
  rw [evaluate_provider_ok_unfold provider test_cases env oracle st0 mres hm]
  exact ⟨key.2.1, key.1, key.2.2.1, key.2.2.2⟩

/-- Witness for C2 amended: one google evaluation with an
always-raising oracle yields `incorrect = total`, `correct = errors = 0`
and only `"ERROR"` predictions. -/
theorem raising_oracle_all_incorrect_witness :
    (evaluate_provider "google" casesW envW oracleErrW ⟨none, none⟩).1.incorrect =
      (evaluate_provider "google" casesW envW oracleErrW ⟨none, none⟩).1.total ∧
    (evaluate_provider "google" casesW envW oracleErrW ⟨none, none⟩).1.correct = 0 ∧
    (evaluate_provider "google" casesW envW oracleErrW ⟨none, none⟩).1.errors = 0 ∧
    ∀ d ∈ (evaluate_provider "google" casesW envW oracleErrW ⟨none, none⟩).1.details,
      d.predicted = "ERROR" :=
  raising_oracle_all_incorrect "google" casesW envW oracleErrW ⟨none, none⟩
    (fun _ => ⟨"boom", rfl⟩) ⟨some "gemini-2.5-flash", rfl⟩ (by decide)
    (by decide)

/-- C9: the Reporter's output sequence is sorted by accuracy in
non-increasing order, and results with equal accuracy keep the
relative order they had in the input list (stable ties, expressed as:
filtering the output on any fixed accuracy value gives exactly the
input filtered on that value). -/
theorem reporter_ranking_sorted_stable (l : List EvaluationResult) :
    (sortResults l).Pairwise (fun u v => v.accuracy ≤ u.accuracy) ∧
    ∀ q : ℚ, (sortResults l).filter (fun r => decide (r.accuracy = q)) =
      l.filter (fun r => decide (r.accuracy = q)) := by
  induction l with
  | nil => exact ⟨List.Pairwise.nil, fun q => rfl⟩
  | cons x xs ih =>
      refine ⟨pairwise_insertByAccuracy x ih.1, fun q => ?_⟩
      by_cases hq : x.accuracy = q
      · simp only [sortResults]
        rw [filter_insertByAccuracy_eq x q hq (sortResults xs), ih.2 q,
          List.filter_cons]
        simp [hq]
      · simp only [sortResults]
        rw [filter_insertByAccuracy_ne x q hq (sortResults xs), ih.2 q,
          List.filter_cons]
        simp [hq]

/-- C10: a failed `initialize_client` is not atomic on the session
state: whenever it raises (unknown provider name, or known provider
with an absent credential), the provider global has already been
overwritten with the lowercased requested name while the client global
keeps its previous value. -/
theorem initialize_client_failure_not_atomic (provider : String)
    (m : Option String) (env : String → Option String) (st : RouterState)
    (e : String)
    (h : (initialize_client provider m env st).2 = Except.error e) :
    (initialize_client provider m env st).1 =
      { client := st.client, provider := some (pyLower provider) } := by
  unfold initialize_client at h ⊢
  by_cases h1 : pyLower provider = "google"
  · cases hg : getenvTruthy env "GOOGLE_API_KEY" with
    | none => simp [h1, hg]
    | some key => simp [h1, hg] at h
  · by_cases h2 : pyLower provider = "groq"
    · cases hg : getenvTruthy env "GROQ_API_KEY" with
      | none => simp [h1, h2, hg]
      | some key => simp [h1, h2, hg] at h
    · simp [h1, h2]

/-- Witness for C10: after a successful google initialization, a
failed re-initialization with the unknown name "bogus" leaves a
mismatched session: the provider global says "bogus" while the client
global still holds the google client. -/
theorem initialize_client_failure_not_atomic_witness :
    (initialize_client "bogus" none envW
        (initialize_client "google" none envW ⟨none, none⟩).1).1 =
      { client := some (Client.google "k"), provider := some "bogus" } :=
  (initialize_client_failure_not_atomic "bogus" none envW
    (initialize_client "google" none envW ⟨none, none⟩).1
    "Unknown provider: bogus. Use google or groq" rfl).trans rfl
